import Mathlib

/-!
Shallow embedding of the Hanover flip-dot display driver
(`hanover_flipdot_py3.py`).  Python integers are modelled by `Nat`
(buffer words, byte values; they are never negative in the source) and
by `Int` where the source may receive negative values (dot
coordinates).  Python floats (the speed factor and delays) are modelled
by `Rat`: every operation the driver performs on them (comparison with
zero, assignment, a single multiplication) is exact.  The serial handle
is modelled by a boolean `ser` (attached or not), and a write of bytes
by a list of the byte values emitted, in order.
-/

namespace HanoverFlipDot

/-- Convert a byte to its two ASCII-hex bytes (`byte_to_ascii`).  The
source applies no mask to its argument, so an argument of 256 or more
produces a first byte beyond the hex-digit range. -/
def byte_to_ascii (byte : Nat) : Nat × Nat :=
  let b1 := byte >>> 4
  let b1 := if b1 > 9 then b1 + 0x37 else b1 + 0x30
  let b2 := byte % 16
  let b2 := if b2 > 9 then b2 + 0x37 else b2 + 0x30
  (b1, b2)

/-- State of a `HanoverFlipDot` object: the fields assigned in
`__init__`, with the serial handle abstracted to a boolean. -/
structure Display where
  address : Nat
  columns : Nat
  rows : Nat
  flip_orientation : Bool
  speed_factor : Rat
  data_size : Nat
  byte_per_column : Nat
  header : List Nat
  footer : List Nat
  buf : List Nat
  ser : Bool
deriving DecidableEq, Repr

/-- The constructor `__init__`: offsets the address by 16, rounds the
rows up to a multiple of 8, computes the data size and bytes per
column, prepares the header and footer, and allocates a zero buffer.
The `ser` argument stands for whether `connect` obtained a serial
handle. -/
def init (address columns rows : Nat) (flip_orientation : Bool)
    (speed_factor : Rat) (ser : Bool) : Display :=
  let addr := address + 16
  let rows2 := if rows % 8 ≠ 0 then rows + (8 - rows % 8) else rows
  let data_size := rows2 * columns / 8
  let byte_per_column := rows2 / 8
  let res := byte_to_ascii (data_size % 256)
  let add := byte_to_ascii addr
  { address := addr
    columns := columns
    rows := rows2
    flip_orientation := flip_orientation
    speed_factor := speed_factor
    data_size := data_size
    byte_per_column := byte_per_column
    header := [0x02, add.1, add.2, res.1, res.2]
    footer := [0x03, 0x00, 0x00]
    buf := List.replicate (data_size / byte_per_column) 0
    ser := ser }

/-- Erase the whole display (`erase_all`): zero every buffer word. -/
def erase_all (d : Display) : Display :=
  { d with buf := List.replicate d.buf.length 0 }

/-- Fill the whole display (`fill_all`): set all `rows` bits of every
buffer word. -/
def fill_all (d : Display) : Display :=
  { d with buf := List.replicate d.buf.length ((1 <<< d.rows) - 1) }

/-- Set one dot (`set_dot`).  Returns the boolean the method returns,
paired with the updated object.  Python's `w & ~(1 << row)` on a
nonnegative word is the bitwise difference, `Nat.ldiff w (1 <<< row)`. -/
def set_dot (d : Display) (col row : Int) (state : Bool) : Bool × Display :=
  let col := if d.flip_orientation then (d.columns : Int) - 1 - col else col
  let row := if d.flip_orientation then (d.rows : Int) - 1 - row else row
  if col < 0 ∨ col ≥ (d.columns : Int) ∨ row < 0 ∨ row ≥ (d.rows : Int) then
    (false, d)
  else
    let c := col.toNat
    let r := row.toNat
    let w := d.buf.getD c 0
    let w2 := if state then w ||| (1 <<< r) else Nat.ldiff w (1 <<< r)
    (true, { d with buf := d.buf.set c w2 })

/-- Invert one dot (`invert_dot`). -/
def invert_dot (d : Display) (col row : Int) : Bool × Display :=
  let col := if d.flip_orientation then (d.columns : Int) - 1 - col else col
  let row := if d.flip_orientation then (d.rows : Int) - 1 - row else row
  if col < 0 ∨ col ≥ (d.columns : Int) ∨ row < 0 ∨ row ≥ (d.rows : Int) then
    (false, d)
  else
    let c := col.toNat
    let r := row.toNat
    (true, { d with buf := d.buf.set c (d.buf.getD c 0 ^^^ (1 <<< r)) })

/-- Read one dot (`get_dot`). -/
def get_dot (d : Display) (col row : Int) : Bool :=
  let col := if d.flip_orientation then (d.columns : Int) - 1 - col else col
  let row := if d.flip_orientation then (d.rows : Int) - 1 - row else row
  if col < 0 ∨ col ≥ (d.columns : Int) ∨ row < 0 ∨ row ≥ (d.rows : Int) then
    false
  else
    (d.buf.getD col.toNat 0 &&& (1 <<< row.toNat)) != 0

/-- Checksum of the frame (`calculate_checksum`): sums the header bytes,
the payload crc and 1, reduces to 8 bits, then takes
`(sum XOR 255) + 1` — with no final 8-bit reduction — writes its two
ASCII-hex bytes into footer positions 1 and 2. -/
def calculate_checksum (d : Display) (crc : Nat) : Display :=
  let sum_value := (d.header.sum + crc + 1) % 256
  let crc2 := (sum_value ^^^ 255) + 1
  let c := byte_to_ascii crc2
  { d with footer := (d.footer.set 1 c.1).set 2 c.2 }

/-- ASCII-hex bytes emitted for one column word by `send`'s inner loop:
bytes of the word least-significant first, each as two hex-ASCII
bytes. -/
def column_bytes (d : Display) (col : Nat) : List Nat :=
  (List.range d.byte_per_column).flatMap fun i =>
    let byte_val := (col >>> (8 * i)) % 256
    let b := byte_to_ascii byte_val
    [b.1, b.2]

/-- The full ASCII-hex payload `send` emits between header and footer. -/
def encode_payload (d : Display) : List Nat :=
  d.buf.flatMap fun col => column_bytes d col

/-- Send the frame (`send`).  Returns the Python return value, the list
of bytes written to the serial port, and the updated object.  Without a
serial handle it returns -1 having written nothing and changed
nothing.  The crc accumulated in the source is the sum of the emitted
payload bytes. -/
def send (d : Display) : Int × List Nat × Display :=
  if d.ser = false then (-1, ([], d))
  else
    let payload := encode_payload d
    let crc := payload.sum
    let d2 := calculate_checksum d crc
    (0, (d.header ++ payload ++ d2.footer, d2))

/-- Toggle the orientation flag (`toggle_orientation`). -/
def toggle_orientation (d : Display) : Display :=
  { d with flip_orientation := !d.flip_orientation }

/-- Set the speed factor (`set_speed_factor`): a non-positive argument
is replaced by 0.05. -/
def set_speed_factor (d : Display) (speed_factor : Rat) : Display :=
  if speed_factor ≤ 0 then { d with speed_factor := 0.05 }
  else { d with speed_factor := speed_factor }

/-- Read the speed factor (`get_speed_factor`). -/
def get_speed_factor (d : Display) : Rat :=
  d.speed_factor

/-- Scale a delay by the speed factor (`adjust_delay`). -/
def adjust_delay (d : Display) (delay : Rat) : Rat :=
  delay * d.speed_factor

/-- Simple ASCII 5x7 font of `write_text`: each character maps to
5 column bytes, each byte a column whose bits are rows. -/
def font : List (Char × List Nat) := [
  (' ', [0x00, 0x00, 0x00, 0x00, 0x00]),
  ('!', [0x00, 0x00, 0x5F, 0x00, 0x00]),
  ('"', [0x00, 0x07, 0x00, 0x07, 0x00]),
  ('#', [0x14, 0x7F, 0x14, 0x7F, 0x14]),
  ('$', [0x24, 0x2A, 0x7F, 0x2A, 0x12]),
  ('%', [0x23, 0x13, 0x08, 0x64, 0x62]),
  ('&', [0x36, 0x49, 0x56, 0x20, 0x50]),
  (Char.ofNat 39, [0x00, 0x08, 0x07, 0x03, 0x00]),
  ('(', [0x00, 0x1C, 0x22, 0x41, 0x00]),
  (')', [0x00, 0x41, 0x22, 0x1C, 0x00]),
  ('*', [0x14, 0x08, 0x3E, 0x08, 0x14]),
  ('+', [0x08, 0x08, 0x3E, 0x08, 0x08]),
  (',', [0x00, 0x50, 0x30, 0x00, 0x00]),
  ('-', [0x08, 0x08, 0x08, 0x08, 0x08]),
  ('.', [0x00, 0x60, 0x60, 0x00, 0x00]),
  ('/', [0x20, 0x10, 0x08, 0x04, 0x02]),
  ('0', [0x3E, 0x51, 0x49, 0x45, 0x3E]),
  ('1', [0x00, 0x42, 0x7F, 0x40, 0x00]),
  ('2', [0x42, 0x61, 0x51, 0x49, 0x46]),
  ('3', [0x21, 0x41, 0x45, 0x4B, 0x31]),
  ('4', [0x18, 0x14, 0x12, 0x7F, 0x10]),
  ('5', [0x27, 0x45, 0x45, 0x45, 0x39]),
  ('6', [0x3C, 0x4A, 0x49, 0x49, 0x30]),
  ('7', [0x01, 0x71, 0x09, 0x05, 0x03]),
  ('8', [0x36, 0x49, 0x49, 0x49, 0x36]),
  ('9', [0x06, 0x49, 0x49, 0x29, 0x1E]),
  (':', [0x00, 0x36, 0x36, 0x00, 0x00]),
  (';', [0x00, 0x56, 0x36, 0x00, 0x00]),
  ('<', [0x08, 0x14, 0x22, 0x41, 0x00]),
  ('=', [0x14, 0x14, 0x14, 0x14, 0x14]),
  ('>', [0x00, 0x41, 0x22, 0x14, 0x08]),
  ('?', [0x02, 0x01, 0x51, 0x09, 0x06]),
  ('@', [0x3E, 0x41, 0x5D, 0x55, 0x5E]),
  ('A', [0x7C, 0x12, 0x11, 0x12, 0x7C]),
  ('B', [0x7F, 0x49, 0x49, 0x49, 0x36]),
  ('C', [0x3E, 0x41, 0x41, 0x41, 0x22]),
  ('D', [0x7F, 0x41, 0x41, 0x22, 0x1C]),
  ('E', [0x7F, 0x49, 0x49, 0x49, 0x41]),
  ('F', [0x7F, 0x09, 0x09, 0x09, 0x01]),
  ('G', [0x3E, 0x41, 0x49, 0x49, 0x3A]),
  ('H', [0x7F, 0x08, 0x08, 0x08, 0x7F]),
  ('I', [0x00, 0x41, 0x7F, 0x41, 0x00]),
  ('J', [0x20, 0x40, 0x41, 0x3F, 0x01]),
  ('K', [0x7F, 0x08, 0x14, 0x22, 0x41]),
  ('L', [0x7F, 0x40, 0x40, 0x40, 0x40]),
  ('M', [0x7F, 0x02, 0x0C, 0x02, 0x7F]),
  ('N', [0x7F, 0x04, 0x08, 0x10, 0x7F]),
  ('O', [0x3E, 0x41, 0x41, 0x41, 0x3E]),
  ('P', [0x7F, 0x09, 0x09, 0x09, 0x06]),
  ('Q', [0x3E, 0x41, 0x51, 0x21, 0x5E]),
  ('R', [0x7F, 0x09, 0x19, 0x29, 0x46]),
  ('S', [0x26, 0x49, 0x49, 0x49, 0x32]),
  ('T', [0x01, 0x01, 0x7F, 0x01, 0x01]),
  ('U', [0x3F, 0x40, 0x40, 0x40, 0x3F]),
  ('V', [0x1F, 0x20, 0x40, 0x20, 0x1F]),
  ('W', [0x3F, 0x40, 0x30, 0x40, 0x3F]),
  ('X', [0x63, 0x14, 0x08, 0x14, 0x63]),
  ('Y', [0x07, 0x08, 0x70, 0x08, 0x07]),
  ('Z', [0x61, 0x51, 0x49, 0x45, 0x43]),
  ('[', [0x00, 0x7F, 0x41, 0x41, 0x00]),
  (Char.ofNat 92, [0x02, 0x04, 0x08, 0x10, 0x20]),
  (']', [0x00, 0x41, 0x41, 0x7F, 0x00]),
  ('^', [0x04, 0x02, 0x01, 0x02, 0x04]),
  ('_', [0x40, 0x40, 0x40, 0x40, 0x40]),
  ('`', [0x00, 0x01, 0x02, 0x04, 0x00]),
  ('a', [0x20, 0x54, 0x54, 0x54, 0x78]),
  ('b', [0x7F, 0x48, 0x44, 0x44, 0x38]),
  ('c', [0x38, 0x44, 0x44, 0x44, 0x20]),
  ('d', [0x38, 0x44, 0x44, 0x48, 0x7F]),
  ('e', [0x38, 0x54, 0x54, 0x54, 0x18]),
  ('f', [0x08, 0x7E, 0x09, 0x01, 0x02]),
  ('g', [0x0C, 0x52, 0x52, 0x52, 0x3E]),
  ('h', [0x7F, 0x08, 0x04, 0x04, 0x78]),
  ('i', [0x00, 0x44, 0x7D, 0x40, 0x00]),
  ('j', [0x20, 0x40, 0x44, 0x3D, 0x00]),
  ('k', [0x7F, 0x10, 0x28, 0x44, 0x00]),
  ('l', [0x00, 0x41, 0x7F, 0x40, 0x00]),
  ('m', [0x7C, 0x04, 0x18, 0x04, 0x78]),
  ('n', [0x7C, 0x08, 0x04, 0x04, 0x78]),
  ('o', [0x38, 0x44, 0x44, 0x44, 0x38]),
  ('p', [0x7C, 0x14, 0x14, 0x14, 0x08]),
  ('q', [0x08, 0x14, 0x14, 0x18, 0x7C]),
  ('r', [0x7C, 0x08, 0x04, 0x04, 0x08]),
  ('s', [0x48, 0x54, 0x54, 0x54, 0x20]),
  ('t', [0x04, 0x3F, 0x44, 0x40, 0x20]),
  ('u', [0x3C, 0x40, 0x40, 0x20, 0x7C]),
  ('v', [0x1C, 0x20, 0x40, 0x20, 0x1C]),
  ('w', [0x3C, 0x40, 0x30, 0x40, 0x3C]),
  ('x', [0x44, 0x28, 0x10, 0x28, 0x44]),
  ('y', [0x0C, 0x50, 0x50, 0x50, 0x3C]),
  ('z', [0x44, 0x64, 0x54, 0x4C, 0x44])]

/-- Lookup in the font table, the `char in font` / `font[char]` pair of
the source. -/
def font_lookup (c : Char) : Option (List Nat) :=
  (font.find? fun p => p.1 == c).map fun p => p.2

/-- Inner loop of `write_text` for one font column: set every dot whose
bit is lit in the pattern, at row offsets 0 through 6. -/
def blit_column (d : Display) (current_col : Int) (row : Int)
    (pattern : Nat) : Display :=
  (List.range 7).foldl
    (fun d row_idx =>
      if pattern &&& (1 <<< row_idx) ≠ 0 then
        (set_dot d current_col (row + (row_idx : Int)) true).2
      else d)
    d

/-- Per-character loop body of `write_text`: blit the 5 font columns,
skipping columns at or past the right edge, advancing one column per
pattern. -/
def write_char (d : Display) (current_col : Int) (row : Int)
    (pat : List Nat) : Display × Int :=
  pat.foldl
    (fun s pattern =>
      let d := if s.2 < (s.1.columns : Int) then blit_column s.1 s.2 row pattern
        else s.1
      (d, s.2 + 1))
    (d, current_col)

/-- Write text (`write_text`): erase the buffer, then draw each
character left to right; a character in the font advances by its 5
columns plus one blank spacing column, an unknown character by 6 blank
columns. -/
def write_text (d : Display) (text : List Char) (col row : Int) : Display :=
  let d := erase_all d
  (text.foldl
    (fun s ch =>
      match font_lookup ch with
      | some pat =>
        let r := write_char s.1 s.2 row pat
        (r.1, r.2 + 1)
      | none => (s.1, s.2 + 6))
    (d, col)).1

/-- Display reached from the constructor with address 2, columns 3,
rows 8, by setting the dots that give the buffer words
0x99, 0x50, 0x00.  Its header sums to 200 and its payload crc to 311,
so the checksum intermediate sum is (200 + 311 + 1) mod 256 = 0. -/
def cex_display : Display :=
  let d := init 2 3 8 false 1 true
  let d := (set_dot d 0 0 true).2
  let d := (set_dot d 0 3 true).2
  let d := (set_dot d 0 4 true).2
  let d := (set_dot d 0 7 true).2
  let d := (set_dot d 1 4 true).2
  let d := (set_dot d 1 6 true).2
  d

/-- Predicate from the spec: a byte is a printable ASCII hex digit,
in the range of the characters 0-9 or A-F. -/
def is_hex_ascii (b : Nat) : Prop :=
  (0x30 ≤ b ∧ b ≤ 0x39) ∨ (0x41 ≤ b ∧ b ≤ 0x46)

instance (b : Nat) : Decidable (is_hex_ascii b) := by
  unfold is_hex_ascii
  infer_instance

/-- Value of the variable `sum_value` inside `calculate_checksum` when
`send` calls it: header byte sum, plus the crc accumulated over the
emitted payload bytes, plus 1, reduced to 8 bits. -/
def frame_sum (d : Display) : Nat :=
  (d.header.sum + (encode_payload d).sum + 1) % 256

/-- Reading a list position just written returns the written word. -/
theorem getD_set_self (l : List Nat) (i a : Nat) (h : i < l.length) :
    (l.set i a).getD i 0 = a := by
  rw [List.getD_eq_getElem?_getD, List.getElem?_set_self (by simpa using h),
    Option.getD_some]

/-- Writing one list position leaves the others unchanged. -/
theorem getD_set_ne (l : List Nat) (i j a : Nat) (h : i ≠ j) :
    (l.set i a).getD j 0 = l.getD j 0 := by
  rw [List.getD_eq_getElem?_getD, List.getD_eq_getElem?_getD,
    List.getElem?_set_ne h]

/-- Every position of a zero-filled buffer reads as zero. -/
theorem getD_replicate_zero (n i : Nat) :
    (List.replicate n (0 : Nat)).getD i 0 = 0 := by
  rw [List.getD_eq_getElem?_getD, List.getElem?_replicate]
  split <;> rfl

/-- The bit test the driver performs, `w & (1 << r) != 0`, is the bit
r of the word. -/
theorem and_shift_bne (w r : Nat) : ((w &&& (1 <<< r)) != 0) = w.testBit r := by
  rw [Nat.shiftLeft_eq, one_mul, Nat.and_two_pow]
  cases h : w.testBit r
  · simp
  · have h2 : (2 : Nat) ^ r ≠ 0 := Nat.pos_iff_ne_zero.mp (Nat.pos_pow_of_pos r (by norm_num))
    simp [h2]

/-- Setting a bit by `w | (1 << r)` makes bit r read as one. -/
theorem testBit_or_shift (w r : Nat) : (w ||| (1 <<< r)).testBit r = true := by
  simp [Nat.shiftLeft_eq, Nat.testBit_two_pow_self]

/-- Clearing a bit by `w & ~(1 << r)` makes bit r read as zero. -/
theorem testBit_ldiff_shift (w r : Nat) :
    (Nat.ldiff w (1 <<< r)).testBit r = false := by
  simp [Nat.testBit_ldiff, Nat.shiftLeft_eq, Nat.testBit_two_pow_self]

/-- C2: a display with columns=1, rows=8, logical address=2 and an
all-zero buffer sends exactly the ten bytes
02 31 32 30 31 30 30 03 44 39, in that order. -/
theorem send_worked_example :
    (send (init 2 1 8 false 1 true)).2.1 =
      [0x02, 0x31, 0x32, 0x30, 0x31, 0x30, 0x30, 0x03, 0x44, 0x39] := by
  decide

/-- C5: without a serial handle, send returns the failure sentinel -1,
writes no bytes, and leaves the whole display state — buffer
included — unchanged. -/
theorem send_no_transport (d : Display) (h : d.ser = false) :
    send d = (-1, ([], d)) := by
  simp [send, h]

/-- Witness for C5 at a concrete display constructed without a
transport. -/
theorem send_no_transport_witness :
    (init 2 1 8 false 1 false).ser = false ∧
      send (init 2 1 8 false 1 false) = (-1, ([], init 2 1 8 false 1 false)) :=
  ⟨rfl, send_no_transport (init 2 1 8 false 1 false) rfl⟩

/-- C8: adjust_delay multiplies by the stored speed factor;
set_speed_factor stores a non-positive argument as 0.05 and a positive
argument as given; hence factor 2 turns a delay of 1 into 2, and
factor 0 is clamped so the delay becomes 0.05. -/
theorem speed_factor_behaviour :
    (∀ (d : Display) (x : Rat), adjust_delay d x = x * d.speed_factor) ∧
    (∀ (d : Display) (s : Rat),
      (set_speed_factor d s).speed_factor = if s ≤ 0 then 0.05 else s) ∧
    (∀ d : Display, adjust_delay (set_speed_factor d 2) 1 = 2) ∧
    (∀ d : Display, adjust_delay (set_speed_factor d 0) 1 = 0.05) := by
  refine ⟨fun d x => rfl, fun d s => ?_, fun d => ?_, fun d => ?_⟩
  · unfold set_speed_factor
    split <;> rfl
  · unfold adjust_delay set_speed_factor
    norm_num
  · unfold adjust_delay set_speed_factor
    norm_num

/-- C10: the constructor stores the speed factor argument unchanged,
with no clamp, for every value including zero and negative ones, and
get_speed_factor and adjust_delay use it as stored. -/
theorem init_speed_factor_unclamped :
    (∀ (a c r : Nat) (f : Bool) (s : Rat) (ser : Bool),
      (init a c r f s ser).speed_factor = s) ∧
    (∀ (a c r : Nat) (f : Bool) (s : Rat) (ser : Bool),
      get_speed_factor (init a c r f s ser) = s) ∧
    (∀ (a c r : Nat) (f : Bool) (s : Rat) (ser : Bool) (x : Rat),
      adjust_delay (init a c r f s ser) x = x * s) :=
  ⟨fun _ _ _ _ _ _ => rfl, fun _ _ _ _ _ _ => rfl, fun _ _ _ _ _ _ _ => rfl⟩

/-- C9: send leaves the buffer, the header and every display setting
unchanged, whether or not a transport is attached; the stored footer is
either untouched (failure path) or rewritten only at positions 1 and 2,
the two checksum bytes. -/
theorem send_frame_effect (d : Display) :
    (send d).2.2.buf = d.buf ∧
    (send d).2.2.header = d.header ∧
    (send d).2.2.columns = d.columns ∧
    (send d).2.2.rows = d.rows ∧
    (send d).2.2.flip_orientation = d.flip_orientation ∧
    (send d).2.2.speed_factor = d.speed_factor ∧
    (send d).2.2.address = d.address ∧
    (send d).2.2.data_size = d.data_size ∧
    (send d).2.2.byte_per_column = d.byte_per_column ∧
    (send d).2.2.ser = d.ser ∧
    ((send d).2.2.footer = d.footer ∨
      ∃ c1 c2, (send d).2.2.footer = (d.footer.set 1 c1).set 2 c2) := by
  unfold send calculate_checksum
  rcases h : d.ser
  · simp [h]
  · simp [h]
    exact Or.inr ⟨_, _, rfl⟩

/-- C7: after construction with columns at least 1, rows at least 1 and
a logical address in 1..16, the stored rows value is the requested rows
rounded up to the next multiple of 8, the buffer is a zero-filled list
of exactly columns words, and the stored wire address is the logical
address plus 16, in 17..32. -/
theorem init_invariants (address columns rows : Nat) (f : Bool) (s : Rat)
    (ser : Bool) (hc : 1 ≤ columns) (hr : 1 ≤ rows)
    (ha1 : 1 ≤ address) (ha2 : address ≤ 16) :
    (init address columns rows f s ser).rows = ((rows + 7) / 8) * 8 ∧
    (init address columns rows f s ser).buf = List.replicate columns 0 ∧
    (init address columns rows f s ser).address = address + 16 ∧
    17 ≤ (init address columns rows f s ser).address ∧
    (init address columns rows f s ser).address ≤ 32 := by
  have hrows : (init address columns rows f s ser).rows =
      if rows % 8 ≠ 0 then rows + (8 - rows % 8) else rows := rfl
  have haddr : (init address columns rows f s ser).address = address + 16 := rfl
  have hbuf : (init address columns rows f s ser).buf =
      List.replicate
        ((if rows % 8 ≠ 0 then rows + (8 - rows % 8) else rows) * columns / 8 /
          ((if rows % 8 ≠ 0 then rows + (8 - rows % 8) else rows) / 8)) 0 := rfl
  have hmul : (if rows % 8 ≠ 0 then rows + (8 - rows % 8) else rows) =
      8 * ((rows + 7) / 8) := by
    split <;> omega
  have hk : 0 < (rows + 7) / 8 := by omega
  have h8 : 0 < (8 : Nat) := by norm_num
  refine ⟨by rw [hrows]; omega, ?_, haddr, by omega, by omega⟩
  rw [hbuf, hmul, Nat.mul_assoc, Nat.mul_div_cancel_left _ h8,
    Nat.mul_div_cancel_left _ h8, Nat.mul_div_cancel_left _ hk]

/-- Witness for C7: requesting 1 column, 5 rows, address 2 yields 8
rows, the one-word zero buffer and wire address 18. -/
theorem init_invariants_witness :
    (init 2 1 5 false 1 true).rows = ((5 + 7) / 8) * 8 ∧
      (init 2 1 5 false 1 true).buf = List.replicate 1 0 ∧
      (init 2 1 5 false 1 true).address = 2 + 16 ∧
      17 ≤ (init 2 1 5 false 1 true).address ∧
      (init 2 1 5 false 1 true).address ≤ 32 :=
  init_invariants 2 1 5 false 1 true (by decide) (by decide) (by decide)
    (by decide)

/-- C3: for logical coordinates outside the display — under either
orientation, and including negative coordinates — set_dot and
invert_dot return false and leave the display, its buffer included,
unchanged, and get_dot returns false. -/
theorem out_of_range_ops (d : Display) (col row : Int) (state : Bool)
    (h : ¬ (0 ≤ col ∧ col < (d.columns : Int) ∧
      0 ≤ row ∧ row < (d.rows : Int))) :
    set_dot d col row state = (false, d) ∧
    invert_dot d col row = (false, d) ∧
    get_dot d col row = false := by
  have hguard :
      (if d.flip_orientation then (d.columns : Int) - 1 - col else col) < 0 ∨
      (if d.flip_orientation then (d.columns : Int) - 1 - col else col) ≥
        (d.columns : Int) ∨
      (if d.flip_orientation then (d.rows : Int) - 1 - row else row) < 0 ∨
      (if d.flip_orientation then (d.rows : Int) - 1 - row else row) ≥
        (d.rows : Int) := by
    cases hb : d.flip_orientation <;> simp [hb] <;> omega
  refine ⟨?_, ?_, ?_⟩
  · simp only [set_dot]
    rw [if_pos hguard]
  · simp only [invert_dot]
    rw [if_pos hguard]
  · simp only [get_dot]
    rw [if_pos hguard]

/-- Witness for C3 at the negative column -1 of a concrete display. -/
theorem out_of_range_ops_witness :
    ¬ (0 ≤ (-1 : Int) ∧ (-1 : Int) < ((init 2 1 8 false 1 true).columns : Int) ∧
        0 ≤ (0 : Int) ∧ (0 : Int) < ((init 2 1 8 false 1 true).rows : Int)) ∧
      set_dot (init 2 1 8 false 1 true) (-1) 0 true = (false, init 2 1 8 false 1 true) ∧
      invert_dot (init 2 1 8 false 1 true) (-1) 0 = (false, init 2 1 8 false 1 true) ∧
      get_dot (init 2 1 8 false 1 true) (-1) 0 = false :=
  ⟨by decide, out_of_range_ops (init 2 1 8 false 1 true) (-1) 0 true (by decide)⟩

/-- C4: on in-range logical coordinates, under either orientation,
get_dot read immediately after set_dot of true returns true, and
immediately after set_dot of false returns false.  The buffer-length
hypothesis is the construction invariant that the buffer holds one word
per column. -/
theorem set_then_get (d : Display) (col row : Int)
    (hlen : d.buf.length = d.columns)
    (h0c : 0 ≤ col) (h1c : col < (d.columns : Int))
    (h0r : 0 ≤ row) (h1r : row < (d.rows : Int)) :
    get_dot (set_dot d col row true).2 col row = true ∧
    get_dot (set_dot d col row false).2 col row = false := by
  have hc2 : 0 ≤ (if d.flip_orientation then (d.columns : Int) - 1 - col else col) ∧
      (if d.flip_orientation then (d.columns : Int) - 1 - col else col) <
        (d.columns : Int) := by
    cases hb : d.flip_orientation <;> simp [hb] <;> omega
  have hr2 : 0 ≤ (if d.flip_orientation then (d.rows : Int) - 1 - row else row) ∧
      (if d.flip_orientation then (d.rows : Int) - 1 - row else row) <
        (d.rows : Int) := by
    cases hb : d.flip_orientation <;> simp [hb] <;> omega
  have hguard : ¬ ((if d.flip_orientation then (d.columns : Int) - 1 - col else col) < 0 ∨
      (if d.flip_orientation then (d.columns : Int) - 1 - col else col) ≥
        (d.columns : Int) ∨
      (if d.flip_orientation then (d.rows : Int) - 1 - row else row) < 0 ∨
      (if d.flip_orientation then (d.rows : Int) - 1 - row else row) ≥
        (d.rows : Int)) := by omega
  have hlt : (if d.flip_orientation then (d.columns : Int) - 1 - col else col).toNat <
      d.buf.length := by omega
  constructor
  · simp only [set_dot, get_dot, if_neg hguard, if_true, if_false,
      Bool.false_eq_true, eq_self_iff_true]
    rw [getD_set_self _ _ _ hlt, and_shift_bne, testBit_or_shift]
  · simp only [set_dot, get_dot, if_neg hguard, if_true, if_false,
      Bool.false_eq_true, eq_self_iff_true]
    rw [getD_set_self _ _ _ hlt, and_shift_bne, testBit_ldiff_shift]

set_option maxRecDepth 100000 in
/-- C1 counterexample: on a reachable display whose checksum
intermediate sum is 0, the first footer checksum byte send writes is
0x47 — the letter G — which differs from the claimed hex-ASCII encoding
of ((sum XOR 0xFF) + 1) & 0xFF and is not an ASCII hex digit. -/
theorem checksum_claim_counterexample :
    frame_sum cex_display = 0 ∧
    (send cex_display).2.2.footer.getD 1 0 = 0x47 ∧
    ((send cex_display).2.2.footer.getD 1 0,
        (send cex_display).2.2.footer.getD 2 0) ≠
      byte_to_ascii (((frame_sum cex_display ^^^ 0xFF) + 1) % 256) ∧
    ¬ is_hex_ascii ((send cex_display).2.2.footer.getD 1 0) := by
  decide

set_option maxRecDepth 100000 in
/-- For a nonzero 8-bit sum, the unmasked value (sum XOR 0xFF) + 1 is
itself below 256, so masking changes nothing and both of its hex-ASCII
bytes are printable hex digits. -/
theorem hex_checksum_of_ne_zero : ∀ s : Nat, s < 256 → s ≠ 0 →
    byte_to_ascii ((s ^^^ 0xFF) + 1) = byte_to_ascii (((s ^^^ 0xFF) + 1) % 256) ∧
    is_hex_ascii (byte_to_ascii ((s ^^^ 0xFF) + 1)).1 ∧
    is_hex_ascii (byte_to_ascii ((s ^^^ 0xFF) + 1)).2 := by
  decide

/-- C1 amended: the two footer checksum bytes send writes are the
hex-ASCII encoding of (sum XOR 0xFF) + 1 with no final 8-bit mask,
where sum is the 8-bit sum of the header bytes, the payload crc and 1.
Whenever sum is nonzero this agrees with the claimed masked value
((sum XOR 0xFF) + 1) & 0xFF and both bytes are printable ASCII hex
digits; the two statements part ways only at sum = 0. -/
theorem checksum_bytes_amended (d : Display) (hser : d.ser = true)
    (hfoot : d.footer.length = 3) :
    (send d).2.2.footer.getD 1 0 =
      (byte_to_ascii ((frame_sum d ^^^ 0xFF) + 1)).1 ∧
    (send d).2.2.footer.getD 2 0 =
      (byte_to_ascii ((frame_sum d ^^^ 0xFF) + 1)).2 ∧
    (frame_sum d ≠ 0 →
      byte_to_ascii ((frame_sum d ^^^ 0xFF) + 1) =
        byte_to_ascii (((frame_sum d ^^^ 0xFF) + 1) % 256) ∧
      is_hex_ascii (byte_to_ascii ((frame_sum d ^^^ 0xFF) + 1)).1 ∧
      is_hex_ascii (byte_to_ascii ((frame_sum d ^^^ 0xFF) + 1)).2) := by
  refine ⟨?_, ?_, fun h0 => ?_⟩
  · simp only [send, hser, Bool.true_eq_false, if_false, calculate_checksum,
      frame_sum]
    rw [getD_set_ne _ 2 1 _ (by omega), getD_set_self _ _ _ (by omega)]
  · simp only [send, hser, Bool.true_eq_false, if_false, calculate_checksum,
      frame_sum]
    rw [getD_set_self _ _ _ (by simp [hfoot])]
  · exact hex_checksum_of_ne_zero (frame_sum d) (Nat.mod_lt _ (by norm_num)) h0

/-- Witness for the amended C1 at a concrete constructed display. -/
theorem checksum_bytes_amended_witness :
    (init 2 1 8 false 1 true).ser = true ∧
    (init 2 1 8 false 1 true).footer.length = 3 ∧
    (send (init 2 1 8 false 1 true)).2.2.footer.getD 1 0 =
      (byte_to_ascii ((frame_sum (init 2 1 8 false 1 true) ^^^ 0xFF) + 1)).1 :=
  ⟨rfl, rfl, (checksum_bytes_amended (init 2 1 8 false 1 true) rfl rfl).1⟩

/-- One in-range set_dot with a true state on a normally oriented
display: the bit is OR-ed into the addressed column word. -/
theorem set_dot_true_normal (d : Display) (col row : Int)
    (hf : d.flip_orientation = false)
    (h0 : 0 ≤ col) (h1 : col < (d.columns : Int))
    (h2 : 0 ≤ row) (h3 : row < (d.rows : Int)) :
    (set_dot d col row true).2 =
      { d with buf :=
          d.buf.set col.toNat (d.buf.getD col.toNat 0 ||| (1 <<< row.toNat)) } := by
  simp only [set_dot, hf, Bool.false_eq_true, if_false]
  rw [if_neg (by omega)]
  simp

/-- Blit of the font pattern 0x7C at base row 0: bits 2 to 6 are set
one by one, which ORs 0x7C into the column word. -/
theorem blit_124 (d : Display) (c : Int) (hf : d.flip_orientation = false)
    (hr : d.rows = 8) (h0 : 0 ≤ c) (h1 : c < (d.columns : Int))
    (hlen : c.toNat < d.buf.length) :
    blit_column d c 0 124 =
      { d with buf := d.buf.set c.toNat (d.buf.getD c.toNat 0 ||| 124) } := by
  have hrange : List.range 7 = [0, 1, 2, 3, 4, 5, 6] := rfl
  simp only [blit_column, hrange, List.foldl_cons, List.foldl_nil,
    Nat.reduceShiftLeft]
  simp only [show ((124:Nat) &&& 1) = 0 from rfl, show ((124:Nat) &&& 2) = 0 from rfl, show ((124:Nat) &&& 4) = 4 from rfl, show ((124:Nat) &&& 8) = 8 from rfl, show ((124:Nat) &&& 16) = 16 from rfl, show ((124:Nat) &&& 32) = 32 from rfl, show ((124:Nat) &&& 64) = 64 from rfl]
  simp only [show (¬((0:Nat) = 0)) = False by simp, show (¬((4:Nat) = 0)) = True by simp, show (¬((8:Nat) = 0)) = True by simp, show (¬((16:Nat) = 0)) = True by simp, show (¬((32:Nat) = 0)) = True by simp, show (¬((64:Nat) = 0)) = True by simp,
    ne_eq, if_true, if_false, ite_true, ite_false]
  simp only [Nat.cast_ofNat, Nat.cast_one, Nat.cast_zero, zero_add]
  simp [set_dot_true_normal, hf, h0, h1, hr, hlen, getD_set_self, List.set_set]
  simp only [Nat.or_assoc]
  rw [show ((4 ||| (8 ||| (16 ||| (32 ||| (64)))):Nat)) = 124 from rfl]

/-- Blit of the font pattern 0x12 at base row 0: bits 1 and 4. -/
theorem blit_18 (d : Display) (c : Int) (hf : d.flip_orientation = false)
    (hr : d.rows = 8) (h0 : 0 ≤ c) (h1 : c < (d.columns : Int))
    (hlen : c.toNat < d.buf.length) :
    blit_column d c 0 18 =
      { d with buf := d.buf.set c.toNat (d.buf.getD c.toNat 0 ||| 18) } := by
  have hrange : List.range 7 = [0, 1, 2, 3, 4, 5, 6] := rfl
  simp only [blit_column, hrange, List.foldl_cons, List.foldl_nil,
    Nat.reduceShiftLeft]
  simp only [show ((18:Nat) &&& 1) = 0 from rfl, show ((18:Nat) &&& 2) = 2 from rfl, show ((18:Nat) &&& 4) = 0 from rfl, show ((18:Nat) &&& 8) = 0 from rfl, show ((18:Nat) &&& 16) = 16 from rfl, show ((18:Nat) &&& 32) = 0 from rfl, show ((18:Nat) &&& 64) = 0 from rfl]
  simp only [show (¬((0:Nat) = 0)) = False by simp, show (¬((2:Nat) = 0)) = True by simp, show (¬((16:Nat) = 0)) = True by simp,
    ne_eq, if_true, if_false, ite_true, ite_false]
  simp only [Nat.cast_ofNat, Nat.cast_one, Nat.cast_zero, zero_add]
  simp [set_dot_true_normal, hf, h0, h1, hr, hlen, getD_set_self, List.set_set]
  simp only [Nat.or_assoc]
  rw [show ((2 ||| (16):Nat)) = 18 from rfl]

/-- Blit of the font pattern 0x11 at base row 0: bits 0 and 4. -/
theorem blit_17 (d : Display) (c : Int) (hf : d.flip_orientation = false)
    (hr : d.rows = 8) (h0 : 0 ≤ c) (h1 : c < (d.columns : Int))
    (hlen : c.toNat < d.buf.length) :
    blit_column d c 0 17 =
      { d with buf := d.buf.set c.toNat (d.buf.getD c.toNat 0 ||| 17) } := by
  have hrange : List.range 7 = [0, 1, 2, 3, 4, 5, 6] := rfl
  simp only [blit_column, hrange, List.foldl_cons, List.foldl_nil,
    Nat.reduceShiftLeft]
  simp only [show ((17:Nat) &&& 1) = 1 from rfl, show ((17:Nat) &&& 2) = 0 from rfl, show ((17:Nat) &&& 4) = 0 from rfl, show ((17:Nat) &&& 8) = 0 from rfl, show ((17:Nat) &&& 16) = 16 from rfl, show ((17:Nat) &&& 32) = 0 from rfl, show ((17:Nat) &&& 64) = 0 from rfl]
  simp only [show (¬((0:Nat) = 0)) = False by simp, show (¬((1:Nat) = 0)) = True by simp, show (¬((16:Nat) = 0)) = True by simp,
    ne_eq, if_true, if_false, ite_true, ite_false]
  simp only [Nat.cast_ofNat, Nat.cast_one, Nat.cast_zero, zero_add]
  simp [set_dot_true_normal, hf, h0, h1, hr, hlen, getD_set_self, List.set_set]
  simp only [Nat.or_assoc]
  rw [show ((1 ||| (16):Nat)) = 17 from rfl]

/-- Writing words at positions 0 to 4 of a zero buffer of width at
least 5 yields those five words followed by zeros. -/
theorem set_chain_replicate (m : Nat) (a b c d e : Nat) :
    (((((List.replicate (m + 5) (0:Nat)).set 0 a).set 1 b).set 2 c).set 3 d).set 4 e =
      [a, b, c, d, e] ++ List.replicate m 0 := by
  have h5 : List.replicate (m + 5) (0:Nat) =
      0 :: 0 :: 0 :: 0 :: 0 :: List.replicate m 0 := by
    rw [Nat.add_comm, List.replicate_add]
    rfl
  rw [h5]
  rfl

/-- C6: on a normally oriented 8-row display wide enough for one
glyph, write_text of the single character A at the origin erases the
buffer and then sets exactly the font bits of A — column patterns
0x7C 0x12 0x11 0x12 0x7C — in buffer columns 0 through 4, leaving every
other column word zero.  The buffer-length hypothesis is the
construction invariant. -/
theorem write_text_A (d : Display) (hf : d.flip_orientation = false)
    (hr : d.rows = 8) (hlen : d.buf.length = d.columns) (hc : 5 ≤ d.columns) :
    (write_text d "A".toList 0 0).buf =
      [0x7C, 0x12, 0x11, 0x12, 0x7C] ++ List.replicate (d.columns - 5) 0 := by
  have hA : "A".toList = [Char.ofNat 65] := rfl
  have hfont : font_lookup (Char.ofNat 65) = some [0x7C, 0x12, 0x11, 0x12, 0x7C] := rfl
  have t0 : (0:Int) < (d.columns : Int) := by omega
  have t1 : (1:Int) < (d.columns : Int) := by omega
  have t2 : (2:Int) < (d.columns : Int) := by omega
  have t3 : (3:Int) < (d.columns : Int) := by omega
  have t4 : (4:Int) < (d.columns : Int) := by omega
  have u0 : 0 < d.columns := by omega
  have u1 : 1 < d.columns := by omega
  have u2 : 2 < d.columns := by omega
  have u3 : 3 < d.columns := by omega
  have u4 : 4 < d.columns := by omega
  simp only [write_text, hA, hfont, erase_all, write_char, List.foldl_cons,
    List.foldl_nil]
  simp only [blit_124, blit_18, blit_17, hf, hr, hlen, t0, t1, t2, t3, t4,
    u0, u1, u2, u3, u4, if_true, ite_true, zero_add, List.length_set,
    List.length_replicate, show ((1:Int) + 1) = 2 from rfl,
    show ((2:Int) + 1) = 3 from rfl, show ((3:Int) + 1) = 4 from rfl,
    show Int.toNat 0 = 0 from rfl, show Int.toNat 1 = 1 from rfl,
    show Int.toNat 2 = 2 from rfl, show Int.toNat 3 = 3 from rfl,
    show Int.toNat 4 = 4 from rfl, le_refl, zero_le_one,
    show ((0:Int) ≤ 2) from by decide, show ((0:Int) ≤ 3) from by decide,
    show ((0:Int) ≤ 4) from by decide]
  simp only [getD_set_ne, getD_replicate_zero, Nat.zero_or, ne_eq,
    not_false_eq_true, show ((0:Nat) ≠ 1) from by decide, show ((0:Nat) ≠ 2) from by decide,
    show ((0:Nat) ≠ 3) from by decide, show ((0:Nat) ≠ 4) from by decide,
    show ((1:Nat) ≠ 2) from by decide, show ((1:Nat) ≠ 3) from by decide,
    show ((1:Nat) ≠ 4) from by decide, show ((2:Nat) ≠ 3) from by decide,
    show ((2:Nat) ≠ 4) from by decide, show ((3:Nat) ≠ 4) from by decide]
  obtain ⟨m, hm⟩ : ∃ m, d.columns = m + 5 := ⟨d.columns - 5, by omega⟩
  rw [hm, Nat.add_sub_cancel]
  exact set_chain_replicate m 124 18 17 18 124

/-- Witness for C6 on a concrete 6-column display. -/
theorem write_text_A_witness :
    (init 2 6 8 false 1 true).flip_orientation = false ∧
    (init 2 6 8 false 1 true).rows = 8 ∧
    (init 2 6 8 false 1 true).buf.length = (init 2 6 8 false 1 true).columns ∧
    5 ≤ (init 2 6 8 false 1 true).columns ∧
    (write_text (init 2 6 8 false 1 true) "A".toList 0 0).buf =
      [0x7C, 0x12, 0x11, 0x12, 0x7C] ++
        List.replicate ((init 2 6 8 false 1 true).columns - 5) 0 :=
  ⟨rfl, rfl, rfl, by decide,
    write_text_A (init 2 6 8 false 1 true) rfl rfl rfl (by decide)⟩

/-- Witness for C4 at dot (0,0) of a concrete display. -/
theorem set_then_get_witness :
    (init 2 1 8 false 1 true).buf.length = (init 2 1 8 false 1 true).columns ∧
    (0:Int) ≤ 0 ∧ (0:Int) < ((init 2 1 8 false 1 true).columns : Int) ∧
    (0:Int) ≤ 0 ∧ (0:Int) < ((init 2 1 8 false 1 true).rows : Int) ∧
    (get_dot (set_dot (init 2 1 8 false 1 true) 0 0 true).2 0 0 = true ∧
      get_dot (set_dot (init 2 1 8 false 1 true) 0 0 false).2 0 0 = false) :=
  ⟨rfl, by decide, by decide, by decide, by decide,
    set_then_get (init 2 1 8 false 1 true) 0 0 rfl (by decide) (by decide)
      (by decide) (by decide)⟩

end HanoverFlipDot
